import Mathlib

/-!
Shallow embedding of `nonebot_plugin_ddcheck/data_source.py` and proofs about
the claims of its specification.

Conventions of the embedding:
* Python strings are Lean `String`; indexing works on `String.data` (`List Char`).
* Python `int` is Lean `Int` (or `Nat` where the source value is a count).
* Python `float` arithmetic (time stamps, percentage, `math.ceil` inputs) is
  modelled with exact rationals `ℚ`; the quantities involved are far below any
  range where binary floating point and exact arithmetic diverge.
* A Python expression that can raise is modelled with `Option` (`none` = the
  exception propagates).
* Network I/O is modelled by passing the outcome of each request explicitly
  (an oracle value per request), so that the control flow around requests is
  translated from the source while the transport itself stays abstract.
-/

namespace DDCheck

/-! ### WBI mixin key (`get_mixin_key`, data_source.py lines 81-93) -/

/-- Translation of `mixinKeyEncTab` (data_source.py lines 81-88); the source
list literal has 109 entries, of which the code uses only the first 64. -/
def mixinKeyEncTab : List Nat :=
  [46, 47, 18, 2, 53, 8, 23, 32, 15, 50, 10, 31, 58, 3, 45, 35, 27, 43, 5, 49,
   33, 9, 42, 19, 29, 28, 14, 36, 17, 20, 34, 44, 57, 16, 26, 56, 1, 40, 52, 37,
   55, 11, 41, 4, 22, 24, 21, 25, 54, 59, 7, 60, 6, 61, 51, 62, 2, 53, 8, 23, 32,
   15, 50, 10, 31, 58, 3, 45, 35, 27, 43, 5, 49, 33, 9, 42, 19, 29, 28, 14, 36,
   17, 20, 34, 44, 57, 16, 26, 56, 1, 40, 52, 37, 55, 11, 41, 4, 22, 24, 21, 25,
   54, 59, 7, 60, 6, 61, 51, 62]

/-- Evaluation of a Python list comprehension that can raise: the first
element on which `f` raises (returns `none`) aborts the whole comprehension. -/
def optMapM (f : α → Option β) : List α → Option (List β)
  | [] => some []
  | a :: l =>
    match f a, optMapM f l with
    | some b, some bs => some (b :: bs)
    | _, _ => none

/-- Translation of `get_mixin_key` (data_source.py lines 90-91):
`"".join([orig_key[i] for i in mixinKeyEncTab[:64]])`.
Python raises `IndexError` when some index is out of range, modelled by `none`. -/
def get_mixin_key (orig_key : String) : Option String :=
  (optMapM (fun i => orig_key.data.get? i) (mixinKeyEncTab.take 64)).map List.asString

/-! ### UTF-8 and `urllib.parse.quote_plus` -/

/-- UTF-8 encoding of a single character, as a list of byte values. -/
def utf8EncodeChar (c : Char) : List Nat :=
  let n := c.toNat
  if n < 0x80 then [n]
  else if n < 0x800 then [0xC0 + n / 0x40, 0x80 + n % 0x40]
  else if n < 0x10000 then
    [0xE0 + n / 0x1000, 0x80 + n / 0x40 % 0x40, 0x80 + n % 0x40]
  else
    [0xF0 + n / 0x40000, 0x80 + n / 0x1000 % 0x40, 0x80 + n / 0x40 % 0x40,
     0x80 + n % 0x40]

/-- UTF-8 encoding of a string, as a list of byte values (the `.encode("utf-8")`
of the source). -/
def utf8Bytes (s : String) : List Nat :=
  s.data.flatMap utf8EncodeChar

/-- Bytes that `urllib.parse.quote` never percent-encodes: ASCII letters,
digits, and `_.-~`. -/
def isAlwaysSafe (b : Nat) : Bool :=
  (0x30 ≤ b && b ≤ 0x39) || (0x41 ≤ b && b ≤ 0x5A) || (0x61 ≤ b && b ≤ 0x7A) ||
    b == 0x5F || b == 0x2E || b == 0x2D || b == 0x7E

/-- Upper-case hexadecimal digit, as used by `urllib.parse.quote`. -/
def hexUpper (n : Nat) : Char :=
  if n < 10 then Char.ofNat (0x30 + n) else Char.ofNat (0x41 + n - 10)

/-- Encoding of one byte under `urllib.parse.quote_plus` with the default
empty safe set: space becomes `+`, always-safe bytes stay themselves, every
other byte becomes `%XX`. -/
def quoteByte (b : Nat) : List Char :=
  if b == 0x20 then ['+']
  else if isAlwaysSafe b then [Char.ofNat b]
  else ['%', hexUpper (b / 16), hexUpper (b % 16)]

/-- Translation of `urllib.parse.quote_plus(s)`: the string is encoded to
UTF-8 and each byte quoted with the space-as-plus convention. -/
def quote_plus (s : String) : String :=
  ((utf8Bytes s).flatMap quoteByte).asString

/-! ### MD5 (`hashlib.md5(...).hexdigest()`), on byte lists, 32-bit words as
`Nat` reduced `% 2 ^ 32` -/

/-- Per-round additive constants of MD5 (`floor(2^32 * abs(sin(i+1)))`). -/
def md5K : List Nat :=
  [0xd76aa478, 0xe8c7b756, 0x242070db, 0xc1bdceee,
   0xf57c0faf, 0x4787c62a, 0xa8304613, 0xfd469501,
   0x698098d8, 0x8b44f7af, 0xffff5bb1, 0x895cd7be,
   0x6b901122, 0xfd987193, 0xa679438e, 0x49b40821,
   0xf61e2562, 0xc040b340, 0x265e5a51, 0xe9b6c7aa,
   0xd62f105d, 0x02441453, 0xd8a1e681, 0xe7d3fbc8,
   0x21e1cde6, 0xc33707d6, 0xf4d50d87, 0x455a14ed,
   0xa9e3e905, 0xfcefa3f8, 0x676f02d9, 0x8d2a4c8a,
   0xfffa3942, 0x8771f681, 0x6d9d6122, 0xfde5380c,
   0xa4beea44, 0x4bdecfa9, 0xf6bb4b60, 0xbebfbc70,
   0x289b7ec6, 0xeaa127fa, 0xd4ef3085, 0x04881d05,
   0xd9d4d039, 0xe6db99e5, 0x1fa27cf8, 0xc4ac5665,
   0xf4292244, 0x432aff97, 0xab9423a7, 0xfc93a039,
   0x655b59c3, 0x8f0ccc92, 0xffeff47d, 0x85845dd1,
   0x6fa87e4f, 0xfe2ce6e0, 0xa3014314, 0x4e0811a1,
   0xf7537e82, 0xbd3af235, 0x2ad7d2bb, 0xeb86d391]

/-- Per-round left-rotation amounts of MD5. -/
def md5S : List Nat :=
  [7, 12, 17, 22, 7, 12, 17, 22, 7, 12, 17, 22, 7, 12, 17, 22,
   5, 9, 14, 20, 5, 9, 14, 20, 5, 9, 14, 20, 5, 9, 14, 20,
   4, 11, 16, 23, 4, 11, 16, 23, 4, 11, 16, 23, 4, 11, 16, 23,
   6, 10, 15, 21, 6, 10, 15, 21, 6, 10, 15, 21, 6, 10, 15, 21]

/-- Bitwise complement on 32-bit words represented as `Nat < 2 ^ 32`. -/
def bnot32 (x : Nat) : Nat := 2 ^ 32 - 1 - x

/-- Left rotation of a 32-bit word by `n` places. -/
def rotl32 (x n : Nat) : Nat := x * 2 ^ n % 2 ^ 32 + x / 2 ^ (32 - n)

/-- Running state of MD5: four 32-bit words. -/
structure MD5State where
  a : Nat
  b : Nat
  c : Nat
  d : Nat
  deriving DecidableEq

/-- Initial MD5 state. -/
def md5Init : MD5State := ⟨0x67452301, 0xefcdab89, 0x98badcfe, 0x10325476⟩

/-- Round mixing function and message-word index of MD5 round `i`. -/
def md5Mix (i b c d : Nat) : Nat × Nat :=
  if i < 16 then (Nat.lor (Nat.land b c) (Nat.land (bnot32 b) d), i)
  else if i < 32 then
    (Nat.lor (Nat.land d b) (Nat.land (bnot32 d) c), (5 * i + 1) % 16)
  else if i < 48 then (Nat.xor b (Nat.xor c d), (3 * i + 5) % 16)
  else (Nat.xor c (Nat.lor b (bnot32 d)), 7 * i % 16)

/-- One MD5 round: mixes message word `M g` into the state. -/
def md5Step (M : Nat → Nat) (st : MD5State) (i : Nat) : MD5State :=
  let fg := md5Mix i st.b st.c st.d
  let f := (fg.1 + st.a + md5K.getD i 0 + M fg.2) % 2 ^ 32
  ⟨st.d, (st.b + rotl32 f (md5S.getD i 0)) % 2 ^ 32, st.b, st.c⟩

/-- Compression of one 64-byte chunk into the state. -/
def md5Compress (st : MD5State) (chunk : List Nat) : MD5State :=
  let M : Nat → Nat := fun g =>
    chunk.getD (4 * g) 0 + 2 ^ 8 * chunk.getD (4 * g + 1) 0 +
      2 ^ 16 * chunk.getD (4 * g + 2) 0 + 2 ^ 24 * chunk.getD (4 * g + 3) 0
  let e := (List.range 64).foldl (md5Step M) st
  ⟨(st.a + e.a) % 2 ^ 32, (st.b + e.b) % 2 ^ 32,
   (st.c + e.c) % 2 ^ 32, (st.d + e.d) % 2 ^ 32⟩

/-- Folding of the compression function over the successive 64-byte chunks. -/
def md5Chunks (st : MD5State) : List Nat → MD5State
  | [] => st
  | b :: rest => md5Chunks (md5Compress st ((b :: rest).take 64)) ((b :: rest).drop 64)
termination_by l => l.length
decreasing_by simp only [List.length_drop, List.length_cons]; omega

/-- Little-endian bytes of a 64-bit length field. -/
def le64 (n : Nat) : List Nat :=
  [n % 2 ^ 8, n / 2 ^ 8 % 2 ^ 8, n / 2 ^ 16 % 2 ^ 8, n / 2 ^ 24 % 2 ^ 8,
   n / 2 ^ 32 % 2 ^ 8, n / 2 ^ 40 % 2 ^ 8, n / 2 ^ 48 % 2 ^ 8, n / 2 ^ 56 % 2 ^ 8]

/-- Little-endian bytes of a 32-bit word. -/
def le32 (n : Nat) : List Nat :=
  [n % 2 ^ 8, n / 2 ^ 8 % 2 ^ 8, n / 2 ^ 16 % 2 ^ 8, n / 2 ^ 24 % 2 ^ 8]

/-- MD5 padding: `0x80`, zeros to 56 mod 64, then the bit length as 64-bit
little-endian. -/
def md5Pad (msg : List Nat) : List Nat :=
  let z := (120 - (msg.length + 1) % 64) % 64
  msg ++ [0x80] ++ List.replicate z 0 ++ le64 (8 * msg.length % 2 ^ 64)

/-- Lower-case hexadecimal digit, as produced by `hexdigest()`. -/
def hexLower (n : Nat) : Char :=
  if n < 10 then Char.ofNat (0x30 + n) else Char.ofNat (0x61 + n - 10)

/-- MD5 digest of a byte list, rendered as the 32-character lower-case
hexadecimal string of `hashlib.md5(bytes).hexdigest()`. -/
def md5Hex (msg : List Nat) : String :=
  let st := md5Chunks md5Init (md5Pad msg)
  ((le32 st.a ++ le32 st.b ++ le32 st.c ++ le32 st.d).flatMap
    (fun b => [hexLower (b / 16), hexLower (b % 16)])).asString

/-! ### WBI signing (`get_wbi_sign_params`, data_source.py lines 77-110)

Parameter mappings are modelled as association lists `List (String × String)`
in insertion order (Python dicts preserve insertion order); the values have
already gone through `str(...)`, which is where the source uses them. -/

/-- Python dict assignment `params[k] = v`: replaces the value of an existing
key in place, otherwise appends the pair at the end. -/
def dictInsert (params : List (String × String)) (k v : String) :
    List (String × String) :=
  if params.any (fun kv => kv.1 == k) then
    params.map (fun kv => if kv.1 == k then (k, v) else kv)
  else params ++ [(k, v)]

/-- Translation of `dict(sorted(params.items()))` for a dict (unique keys):
sort the pairs by key, ascending in the codepoint-lexicographic string order
(which coincides with byte order of the UTF-8 encodings). -/
def sortByKey (params : List (String × String)) : List (String × String) :=
  params.mergeSort (fun a b => decide (a.1 ≤ b.1))

/-- Canonical query string of the signing step (data_source.py lines 101-104):
each field rendered `key=quote_plus(value)`, joined with `&`. -/
def canonicalQuery (sp : List (String × String)) : String :=
  String.intercalate "&" (sp.map (fun kv => kv.1 ++ "=" ++ quote_plus kv.2))

/-- Translation of `get_wbi_sign_params` (data_source.py lines 77-110). The
current cached keys and the current epoch second `wts` are passed explicitly;
`none` models the `IndexError` escaping from `get_mixin_key`. -/
def get_wbi_sign_params (img_key sub_key : String)
    (params : List (String × String)) (wts : Nat) :
    Option (List (String × String)) :=
  (get_mixin_key (img_key ++ sub_key)).map (fun mixin_key =>
    let sorted_params := sortByKey (dictInsert params "wts" (toString wts))
    let query := canonicalQuery sorted_params
    let hash_value := md5Hex (utf8Bytes (query ++ mixin_key))
    sorted_params ++ [("w_rid", hash_value)])

/-! ### WBI key cache (`get_wbi_keys`, data_source.py lines 44-75) -/

/-- Shape of the module-level `_cached_wbi_keys` dict. -/
structure WbiCache where
  img_key : String
  sub_key : String
  last_fetch : ℚ
  deriving DecidableEq

/-- Initial value of `_cached_wbi_keys` (data_source.py line 44). -/
def initWbiCache : WbiCache := ⟨"", "", 0⟩

/-- Outcome of the one navigation-endpoint request of a refresh: either the
two URLs parsed out of the response, or any failure (network error, bad
status, parse error, missing field), which the source re-raises. -/
inductive NavOutcome where
  | err : NavOutcome
  | ok (img_url sub_url : String) : NavOutcome
  deriving DecidableEq

/-- Key derivation `url.split("/")[-1].split(".")[0]` (data_source.py
lines 64-65): last path component, then the part before the first dot. -/
def keyFromUrl (url : String) : String :=
  (((url.splitOn "/").getLastD "").splitOn ".").headD ""

/-- Translation of `get_wbi_keys` (data_source.py lines 46-75). The state, the
current time and the outcome of the (at most one) refresh request are passed
explicitly. Result: the returned key pair (`none` when the refresh failure is
re-raised), the cache state after the call, and the number of network calls
made. -/
def get_wbi_keys (st : WbiCache) (current_time : ℚ) (fetch : NavOutcome) :
    Option (String × String) × WbiCache × Nat :=
  if current_time - st.last_fetch < 1800 then
    (some (st.img_key, st.sub_key), st, 0)
  else
    match fetch with
    | NavOutcome.ok img_url sub_url =>
      let img_key := keyFromUrl img_url
      let sub_key := keyFromUrl sub_url
      (some (img_key, sub_key), ⟨img_key, sub_key, current_time⟩, 1)
    | NavOutcome.err => (none, st, 1)

/-! ### Paginated follow-list fetch (`get_user_attentions`, data_source.py
lines 213-256)

The loop body of the source signs the page parameters, issues the request,
checks the status and parses `resp.json()["data"]`; any exception in that
body is covered by the single outcome `PageOutcome.err`. A successful
iteration yields the parsed `data["list"]`. -/

/-- One follow-list entry as read off a page: the source only ever reads the
`mid` and `uname` fields of each user dict. -/
structure FollowUser where
  mid : Int
  uname : String
  deriving DecidableEq

/-- Outcome of one iteration of the page loop, up to and including parsing. -/
inductive PageOutcome where
  | err : PageOutcome
  | ok (users : List FollowUser) : PageOutcome
  deriving DecidableEq

/-- Fixed page size of the fetch (data_source.py line 218). -/
def page_size : Nat := 50

/-- Translation of the `while True` page loop (data_source.py lines 223-249),
driven by the oracle list of successive page outcomes. Returns the
accumulated entries together with the number of page requests issued, or
`none` when an iteration raises (an exhausted oracle also maps to `none`:
the loop would have issued a request whose outcome is unspecified). -/
def fetchLoop : List PageOutcome → Option (List FollowUser × Nat)
  | [] => none
  | PageOutcome.err :: _ => none
  | PageOutcome.ok users :: rest =>
    if users.isEmpty then some ([], 1)
    else
      let entries := users.map (fun u => FollowUser.mk u.mid u.uname)
      if users.length < page_size then some (entries, 1)
      else
        match fetchLoop rest with
        | none => none
        | some (tail, n) => some (entries ++ tail, n + 1)

/-- Translation of `get_user_attentions` (data_source.py lines 213-256):
`keys_ok` is whether the initial `get_wbi_keys()` call succeeds; the whole
body is wrapped in `try/except` returning `[]` on any exception. -/
def get_user_attentions (keys_ok : Bool) (pages : List PageOutcome) :
    List FollowUser :=
  if keys_ok then
    match fetchLoop pages with
    | some (attentions_data, _) => attentions_data
    | none => []
  else []

/-! ### Registry refresh (`update_vtb_list` / `dump_vtb_list`, data_source.py
lines 112-166)

Mirror items are arbitrary JSON objects, modelled as association lists of
string keys to atomic JSON values (the fields the source inspects are numbers
or strings). -/

/-- Atomic JSON value of a mirror item field. -/
inductive JVal where
  | jint (n : Int) : JVal
  | jstr (s : String) : JVal
  deriving DecidableEq

/-- One mirror item: a JSON object in key order. -/
def Info : Type := List (String × JVal)

instance : DecidableEq Info := inferInstanceAs (DecidableEq (List (String × JVal)))

/-- Python `info.get(k, None)`. -/
def jget (info : Info) (k : String) : Option JVal :=
  (info.find? (fun kv => kv.1 == k)).map (fun kv => kv.2)

/-- Python truthiness of an `Option JVal`: `None`, `0` and `""` are falsy. -/
def jtruthy : Option JVal → Bool
  | none => false
  | some (JVal.jint n) => n != 0
  | some (JVal.jstr s) => s != ""

/-- Python `int(v)` on a number or decimal string; `none` models the
`ValueError`/`TypeError` raised on a non-numeric string. -/
def pyInt : JVal → Option Int
  | JVal.jint n => some n
  | JVal.jstr s => s.toInt?

/-- Records appended to `vtb_list` for one mirror item (data_source.py lines
127-133): the two `if` statements are independent, so one item can append
twice. `none` models `int(info["uid"])` raising. -/
def processItem (info : Info) : Option (List Info) :=
  let p1 : Option (List Info) :=
    if jtruthy (jget info "uid") && jtruthy (jget info "uname") then
      match pyInt ((jget info "uid").getD (JVal.jint 0)) with
      | none => none
      | some n =>
        some [[("mid", JVal.jint n), ("uname", (jget info "uname").getD (JVal.jint 0))]]
    else some []
  let p2 : List Info :=
    if jtruthy (jget info "mid") && jtruthy (jget info "uname") then [info]
    else []
  p1.map (fun l => l ++ p2)

/-- Records appended while iterating one mirror result; the Bool is whether
the iteration completed without raising. On a raise, the records appended
before the raising item are kept (the `except` clause only moves to the next
mirror). -/
def processItems : List Info → List Info × Bool
  | [] => ([], true)
  | info :: rest =>
    match processItem info with
    | none => ([], false)
    | some recs =>
      let tail := processItems rest
      (recs ++ tail.1, tail.2)

/-- Outcome of one mirror request: `timeout` (`httpx.TimeoutException`),
`exception` (any other error before a result is parsed), or a parsed JSON
list. -/
inductive MirrorOutcome where
  | timeout : MirrorOutcome
  | exception : MirrorOutcome
  | ok (items : List Info) : MirrorOutcome
  deriving DecidableEq

/-- Translation of the mirror loop of `update_vtb_list` (data_source.py lines
120-138), accumulating into `vtb_list`: a timeout or exception logs and moves
on; an empty result `continue`s; a successfully processed non-empty result
`break`s; an exception while processing items keeps the partial appends and
moves on. -/
def updateLoop : List MirrorOutcome → List Info → List Info
  | [], vtb_list => vtb_list
  | MirrorOutcome.timeout :: rest, vtb_list => updateLoop rest vtb_list
  | MirrorOutcome.exception :: rest, vtb_list => updateLoop rest vtb_list
  | MirrorOutcome.ok items :: rest, vtb_list =>
    if items.isEmpty then updateLoop rest vtb_list
    else
      let pr := processItems items
      if pr.2 then vtb_list ++ pr.1
      else updateLoop rest (vtb_list ++ pr.1)

/-- Translation of `update_vtb_list` (data_source.py lines 112-139) at the
level of the persisted store: the final `dump_vtb_list(vtb_list)` overwrites
the stored registry with the accumulated list, whatever the previous stored
value was. Returns the new stored registry. -/
def update_vtb_list (outcomes : List MirrorOutcome) (prev_stored : List Info) :
    List Info :=
  updateLoop outcomes []

/-! ### Report numerics (`render_ddcheck_image`, data_source.py lines
287-310) -/

/-- Registry entry as used by the aggregator. -/
structure VtbEntry where
  mid : Int
  uname : String
  deriving DecidableEq

/-- Python `percent = vtbs_num / follows_num * 100 if follows_num else 0`
(data_source.py line 299), with float division modelled in `ℚ`. -/
def render_percent (vtbs_num follows_num : ℕ) : ℚ :=
  if follows_num ≠ 0 then (vtbs_num : ℚ) / (follows_num : ℚ) * 100 else 0

/-- Python `num_per_col = math.ceil(vtbs_num / math.ceil(vtbs_num / 100)) if
vtbs_num else 1` (data_source.py line 300), with float division modelled in
`ℚ`. -/
def render_num_per_col (vtbs_num : ℕ) : ℕ :=
  if vtbs_num ≠ 0 then ⌈(vtbs_num : ℚ) / (⌈(vtbs_num : ℚ) / 100⌉₊ : ℚ)⌉₊ else 1

/-- Python dict comprehension `{info["mid"]: info for info in vtb_list}`:
first occurrence fixes the position, last occurrence fixes the value. -/
def dictByMid (l : List VtbEntry) : List VtbEntry :=
  l.foldl (fun acc e =>
    if acc.any (fun x => x.mid == e.mid) then
      acc.map (fun x => if x.mid == e.mid then e else x)
    else acc ++ [e]) []

/-- Numeric core of `render_ddcheck_image` (data_source.py lines 287-310):
the deduplicated registry is intersected with the follow list by `mid`, and
the percentage and column layout are computed from the match count. Medal
decoration and HTML rendering are outside the embedding. -/
def render_ddcheck_stats (follows_num : ℕ) (vtb_list : List VtbEntry)
    (attentions : List Int) : ℚ × ℕ :=
  let vtbs := (dictByMid vtb_list).filter (fun e => attentions.contains e.mid)
  let vtbs_num := vtbs.length
  (render_percent vtbs_num follows_num, render_num_per_col vtbs_num)

/-! ## Helper lemmas -/

theorem optMapM_eq_some (f : α → Option β) (g : α → β) :
    ∀ l : List α, (∀ a ∈ l, f a = some (g a)) → optMapM f l = some (l.map g)
  | [], _ => rfl
  | a :: l, h => by
    have ha := h a (List.mem_cons_self a l)
    have hl := optMapM_eq_some f g l (fun b hb => h b (List.mem_cons_of_mem a hb))
    simp [optMapM, ha, hl]

theorem optMapM_eq_none (f : α → Option β) :
    ∀ l : List α, (∃ a ∈ l, f a = none) → optMapM f l = none
  | a :: l, h => by
    rcases h with ⟨b, hb, hfb⟩
    rcases List.mem_cons.mp hb with rfl | hbl
    · simp [optMapM, hfb]
    · have hl := optMapM_eq_none f l ⟨b, hbl, hfb⟩
      cases hfa : f a <;> simp [optMapM, hfa, hl]

theorem mixinKeyEncTab_take_le : ∀ p ∈ mixinKeyEncTab.take 64, p ≤ 62 := by decide

theorem mixinKeyEncTab_take_length : (mixinKeyEncTab.take 64).length = 64 := by decide

theorem get?_eq_some_getD (l : List Char) (p : Nat) (h : p < l.length) :
    l.get? p = some (l.getD p 'A') := by
  rw [List.getD_eq_getElem?_getD, List.get?_eq_getElem?, List.getElem?_eq_getElem h]
  rfl

/-- Under the length precondition, `get_mixin_key` succeeds and returns the
selection of the characters at the first 64 table positions. -/
theorem get_mixin_key_of_long (s : String) (h : 63 ≤ s.length) :
    get_mixin_key s =
      some ((mixinKeyEncTab.take 64).map (fun p => s.data.getD p 'A')).asString := by
  unfold get_mixin_key
  rw [optMapM_eq_some (fun i => s.data.get? i) (fun p => s.data.getD p 'A')]
  · rfl
  · intro p hp
    have hp62 : p ≤ 62 := mixinKeyEncTab_take_le p hp
    have hlt : p < s.data.length := by
      have hs : s.length = s.data.length := rfl
      omega
    exact get?_eq_some_getD s.data p hlt

/-! ## Claims -/

/-- C3: for every key pair whose concatenation is long enough (length at
least 63, so that every table index, 62 at most, is in range), the mixed
signing secret is computed: it is a 64-character string whose k-th character
is the character of the concatenation at index p, where p is the k-th of the
first 64 entries of the fixed permutation table, in table order. -/
theorem c3_mixin_key_spec (img_key sub_key : String)
    (h : 63 ≤ (img_key ++ sub_key).length) :
    ∃ m, get_mixin_key (img_key ++ sub_key) = some m ∧ m.length = 64 ∧
      ∀ k p, (mixinKeyEncTab.take 64).get? k = some p →
        m.data.get? k = (img_key ++ sub_key).data.get? p := by
  refine ⟨_, get_mixin_key_of_long _ h, ?_, ?_⟩
  · rw [List.length_asString, List.length_map, mixinKeyEncTab_take_length]
  · intro k p hkp
    have hmem : p ∈ mixinKeyEncTab.take 64 := List.get?_mem hkp
    have hp62 : p ≤ 62 := mixinKeyEncTab_take_le p hmem
    have hlt : p < (img_key ++ sub_key).data.length := by
      have hs : (img_key ++ sub_key).length = (img_key ++ sub_key).data.length := rfl
      omega
    have hdata :
        (((mixinKeyEncTab.take 64).map
          (fun q => (img_key ++ sub_key).data.getD q 'A')).asString).data =
        (mixinKeyEncTab.take 64).map
          (fun q => (img_key ++ sub_key).data.getD q 'A') := rfl
    rw [hdata, List.get?_map, hkp, get?_eq_some_getD _ p hlt]
    rfl

/-- C3 witness: concrete keys of total length 64. -/
theorem c3_witness :
    63 ≤ ("abcdefghijklmnopqrstuvwxyzABCDEF" ++ "GHIJKLMNOPQRSTUVWXYZ0123456789+/").length ∧
    ∃ m, get_mixin_key ("abcdefghijklmnopqrstuvwxyzABCDEF" ++ "GHIJKLMNOPQRSTUVWXYZ0123456789+/") = some m ∧
      m.length = 64 ∧
      ∀ k p, (mixinKeyEncTab.take 64).get? k = some p →
        m.data.get? k =
          ("abcdefghijklmnopqrstuvwxyzABCDEF" ++ "GHIJKLMNOPQRSTUVWXYZ0123456789+/").data.get? p :=
  ⟨by decide, c3_mixin_key_spec "abcdefghijklmnopqrstuvwxyzABCDEF"
    "GHIJKLMNOPQRSTUVWXYZ0123456789+/" (by decide)⟩

/-- C2: for every long-enough key pair and every input parameter mapping, the
signing operation returns the parameters sorted by key ascending (in the
codepoint order of the strings, which is the byte order of their UTF-8
encodings), followed by one final field `w_rid` whose value is the lower-case
MD5 hex digest of the canonical query string — each field `key=quote_plus(value)`
joined with `&`, over exactly the sorted fields, so not including `w_rid`
itself — concatenated with the mixed secret. -/
theorem c2_sign_structure (img_key sub_key : String)
    (params : List (String × String)) (wts : Nat)
    (h : 63 ≤ (img_key ++ sub_key).length) :
    ∃ mixin_key, get_mixin_key (img_key ++ sub_key) = some mixin_key ∧
      get_wbi_sign_params img_key sub_key params wts =
        some (sortByKey (dictInsert params "wts" (toString wts)) ++
          [("w_rid",
            md5Hex (utf8Bytes
              (canonicalQuery (sortByKey (dictInsert params "wts" (toString wts))) ++
                mixin_key)))]) ∧
      (sortByKey (dictInsert params "wts" (toString wts))).Pairwise
        (fun a b => a.1 ≤ b.1) ∧
      (sortByKey (dictInsert params "wts" (toString wts))).Perm
        (dictInsert params "wts" (toString wts)) := by
  obtain ⟨m, hm⟩ : ∃ m, get_mixin_key (img_key ++ sub_key) = some m :=
    ⟨_, get_mixin_key_of_long _ h⟩
  refine ⟨m, hm, ?_, ?_, ?_⟩
  · unfold get_wbi_sign_params
    rw [hm]
    rfl
  · have htrans : ∀ a b c : String × String,
        decide (a.1 ≤ b.1) = true → decide (b.1 ≤ c.1) = true →
          decide (a.1 ≤ c.1) = true := by
      intro a b c hab hbc
      simp only [decide_eq_true_eq] at *
      exact le_trans hab hbc
    have htotal : ∀ a b : String × String,
        (decide (a.1 ≤ b.1) || decide (b.1 ≤ a.1)) = true := by
      intro a b
      simp only [Bool.or_eq_true, decide_eq_true_eq]
      exact le_total a.1 b.1
    have hs := List.sorted_mergeSort htrans htotal
      (dictInsert params "wts" (toString wts))
    exact hs.imp (fun hab => of_decide_eq_true hab)
  · exact List.mergeSort_perm (dictInsert params "wts" (toString wts)) _

/-- C2 witness: concrete 64-character key pair and the search parameters of
the identity-resolution call. -/
theorem c2_witness :
    63 ≤ ("7cd084941338484aae1ad9425b84077c" ++ "4932caff0ff746eab6f01bf08b70ac45").length ∧
    ∃ mixin_key,
      get_mixin_key ("7cd084941338484aae1ad9425b84077c" ++ "4932caff0ff746eab6f01bf08b70ac45") =
        some mixin_key ∧
      get_wbi_sign_params "7cd084941338484aae1ad9425b84077c" "4932caff0ff746eab6f01bf08b70ac45"
          [("search_type", "bili_user"), ("keyword", "test name")] 1700000000 =
        some (sortByKey (dictInsert [("search_type", "bili_user"), ("keyword", "test name")]
            "wts" (toString 1700000000)) ++
          [("w_rid",
            md5Hex (utf8Bytes
              (canonicalQuery (sortByKey (dictInsert
                [("search_type", "bili_user"), ("keyword", "test name")]
                "wts" (toString 1700000000))) ++ mixin_key)))]) ∧
      (sortByKey (dictInsert [("search_type", "bili_user"), ("keyword", "test name")]
        "wts" (toString 1700000000))).Pairwise (fun a b => a.1 ≤ b.1) ∧
      (sortByKey (dictInsert [("search_type", "bili_user"), ("keyword", "test name")]
        "wts" (toString 1700000000))).Perm
        (dictInsert [("search_type", "bili_user"), ("keyword", "test name")]
          "wts" (toString 1700000000)) :=
  ⟨by decide, c2_sign_structure "7cd084941338484aae1ad9425b84077c"
    "4932caff0ff746eab6f01bf08b70ac45"
    [("search_type", "bili_user"), ("keyword", "test name")] 1700000000 (by decide)⟩

/-- C10: when the concatenated keys have length 62 or less (in particular in
the initial cache state, where both keys are empty), the first 64 table
positions include the out-of-range index 62, the mixin-key comprehension
raises `IndexError`, and the signing operation propagates it instead of
returning a signed mapping. -/
theorem c10_short_keys_raise (img_key sub_key : String)
    (params : List (String × String)) (wts : Nat)
    (h : (img_key ++ sub_key).length ≤ 62) :
    62 ∈ mixinKeyEncTab.take 64 ∧
    get_mixin_key (img_key ++ sub_key) = none ∧
    get_wbi_sign_params img_key sub_key params wts = none := by
  have hmem : 62 ∈ mixinKeyEncTab.take 64 := by decide
  have hnone : (img_key ++ sub_key).data.get? 62 = none := by
    apply List.get?_eq_none.mpr
    have hs : (img_key ++ sub_key).length = (img_key ++ sub_key).data.length := rfl
    omega
  have hmix : get_mixin_key (img_key ++ sub_key) = none := by
    unfold get_mixin_key
    rw [optMapM_eq_none _ _ ⟨62, hmem, hnone⟩]
    rfl
  exact ⟨hmem, hmix, by unfold get_wbi_sign_params; rw [hmix]; rfl⟩

/-- C10 witness: the initial cache state (both keys empty, concatenation of
length 0). -/
theorem c10_witness :
    ("" ++ "").length ≤ 62 ∧
    (62 ∈ mixinKeyEncTab.take 64 ∧
     get_mixin_key ("" ++ "") = none ∧
     get_wbi_sign_params "" "" [("search_type", "bili_user")] 1700000000 = none) :=
  ⟨by decide, c10_short_keys_raise "" "" [("search_type", "bili_user")] 1700000000 (by decide)⟩

/-- C4: if any exception is raised at any point of the paginated fetch —
the initial key refresh (`keys_ok = false`) or any iteration of the page loop
(`fetchLoop` propagates `none`) — `get_user_attentions` returns the empty
list, never the entries accumulated before the failure. -/
theorem c4_exception_returns_empty (keys_ok : Bool) (pages : List PageOutcome)
    (h : keys_ok = false ∨ fetchLoop pages = none) :
    get_user_attentions keys_ok pages = [] := by
  cases keys_ok with
  | false => rfl
  | true =>
    rcases h with hk | hfl
    · exact absurd hk (by simp)
    · simp [get_user_attentions, hfl]

/-- C4 witness: a full first page followed by a failing second request — the
50 accumulated entries are discarded. -/
theorem c4_witness :
    (true = false ∨
      fetchLoop [PageOutcome.ok (List.replicate 50 (FollowUser.mk 1 "a")),
        PageOutcome.err] = none) ∧
    get_user_attentions true
      [PageOutcome.ok (List.replicate 50 (FollowUser.mk 1 "a")), PageOutcome.err] = [] :=
  ⟨Or.inr (by decide),
    c4_exception_returns_empty true
      [PageOutcome.ok (List.replicate 50 (FollowUser.mk 1 "a")), PageOutcome.err]
      (Or.inr (by decide))⟩

/-- C5: when pages 1 to N-1 each hold exactly `page_size` entries and page N
holds fewer, the fetch issues exactly N page requests, accumulates every
entry of every page in order, and never touches the oracle beyond page N. -/
theorem c5_pagination (front : List (List FollowUser)) (last : List FollowUser)
    (rest : List PageOutcome)
    (hfront : ∀ l ∈ front, l.length = page_size)
    (hlast : last.length < page_size) :
    fetchLoop (front.map PageOutcome.ok ++ PageOutcome.ok last :: rest) =
      some ((front.flatMap id ++ last).map (fun u => FollowUser.mk u.mid u.uname),
        front.length + 1) ∧
    get_user_attentions true (front.map PageOutcome.ok ++ PageOutcome.ok last :: rest) =
      (front.flatMap id ++ last).map (fun u => FollowUser.mk u.mid u.uname) := by
  have hloop : fetchLoop (front.map PageOutcome.ok ++ PageOutcome.ok last :: rest) =
      some ((front.flatMap id ++ last).map (fun u => FollowUser.mk u.mid u.uname),
        front.length + 1) := by
    induction front with
    | nil =>
      by_cases h0 : last.isEmpty
      · have : last = [] := List.isEmpty_iff.mp h0
        subst this
        simp [fetchLoop]
      · simp [fetchLoop, h0, hlast]
    | cons p front ih =>
      have hp : p.length = page_size := hfront p (List.mem_cons_self p front)
      have hp0 : ¬ p.isEmpty := by
        rw [List.isEmpty_iff]
        intro hnil
        rw [hnil] at hp
        simp [page_size] at hp
      have hplt : ¬ p.length < page_size := by omega
      have ih := ih (fun l hl => hfront l (List.mem_cons_of_mem p hl))
      simp only [List.map_cons, List.cons_append, fetchLoop, hp0, hplt, if_false,
        Bool.false_eq_true, List.append_eq]
      rw [ih]
      simp [List.flatMap_cons]
  exact ⟨hloop, by simp [get_user_attentions, hloop]⟩

/-- C5 witness: one full page of 50 entries and a short second page — exactly
two requests, all 51 entries in order, a further available page untouched. -/
theorem c5_witness :
    (∀ l ∈ [List.replicate 50 (FollowUser.mk 1 "a")], l.length = page_size) ∧
    [FollowUser.mk 2 "b"].length < page_size ∧
    fetchLoop ([List.replicate 50 (FollowUser.mk 1 "a")].map PageOutcome.ok ++
        PageOutcome.ok [FollowUser.mk 2 "b"] :: [PageOutcome.ok [FollowUser.mk 3 "c"]]) =
      some (([List.replicate 50 (FollowUser.mk 1 "a")].flatMap id ++ [FollowUser.mk 2 "b"]).map
          (fun u => FollowUser.mk u.mid u.uname),
        [List.replicate 50 (FollowUser.mk 1 "a")].length + 1) ∧
    get_user_attentions true ([List.replicate 50 (FollowUser.mk 1 "a")].map PageOutcome.ok ++
        PageOutcome.ok [FollowUser.mk 2 "b"] :: [PageOutcome.ok [FollowUser.mk 3 "c"]]) =
      ([List.replicate 50 (FollowUser.mk 1 "a")].flatMap id ++ [FollowUser.mk 2 "b"]).map
        (fun u => FollowUser.mk u.mid u.uname) := by
  refine ⟨by decide, by decide, ?_⟩
  have h := c5_pagination [List.replicate 50 (FollowUser.mk 1 "a")] [FollowUser.mk 2 "b"]
    [PageOutcome.ok [FollowUser.mk 3 "c"]] (by decide) (by decide)
  exact h

/-- C6: while the cache age is below 1800 seconds the call returns the cached
pair unchanged with no network call; from age 1800 on it makes exactly one
refresh call, and then either replaces `img_key`, `sub_key` and `last_fetch`
together (success) or leaves the cache untouched and propagates the error
(failure). -/
theorem c6_key_cache (st : WbiCache) (current_time : ℚ) (fetch : NavOutcome) :
    (current_time - st.last_fetch < 1800 →
      get_wbi_keys st current_time fetch = (some (st.img_key, st.sub_key), st, 0)) ∧
    (1800 ≤ current_time - st.last_fetch →
      (get_wbi_keys st current_time fetch).2.2 = 1 ∧
      (fetch = NavOutcome.err →
        get_wbi_keys st current_time fetch = (none, st, 1)) ∧
      (∀ img_url sub_url, fetch = NavOutcome.ok img_url sub_url →
        get_wbi_keys st current_time fetch =
          (some (keyFromUrl img_url, keyFromUrl sub_url),
            ⟨keyFromUrl img_url, keyFromUrl sub_url, current_time⟩, 1))) := by
  constructor
  · intro h
    simp [get_wbi_keys, h]
  · intro h
    have hnot : ¬ current_time - st.last_fetch < 1800 := not_lt.mpr h
    refine ⟨?_, ?_, ?_⟩
    · cases fetch <;> simp [get_wbi_keys, hnot]
    · rintro rfl
      simp [get_wbi_keys, hnot]
    · rintro img_url sub_url rfl
      simp [get_wbi_keys, hnot]

/-- C6 witness: the initial cache at age 100 (fresh: cached pair, no call),
at age 2000 with a failing refresh (error propagates, state untouched), and
at age 2000 with a successful refresh (all three fields replaced). -/
theorem c6_witness :
    ((100 : ℚ) - initWbiCache.last_fetch < 1800 ∧
      get_wbi_keys initWbiCache 100 NavOutcome.err =
        (some (initWbiCache.img_key, initWbiCache.sub_key), initWbiCache, 0)) ∧
    ((1800 : ℚ) ≤ 2000 - initWbiCache.last_fetch ∧
      get_wbi_keys initWbiCache 2000 NavOutcome.err = (none, initWbiCache, 1)) ∧
    get_wbi_keys initWbiCache 2000
        (NavOutcome.ok "https://i0.hdslb.com/bfs/wbi/7cd084941338.png"
          "https://i0.hdslb.com/bfs/wbi/4932caff0ff7.png") =
      (some (keyFromUrl "https://i0.hdslb.com/bfs/wbi/7cd084941338.png",
          keyFromUrl "https://i0.hdslb.com/bfs/wbi/4932caff0ff7.png"),
        ⟨keyFromUrl "https://i0.hdslb.com/bfs/wbi/7cd084941338.png",
          keyFromUrl "https://i0.hdslb.com/bfs/wbi/4932caff0ff7.png", 2000⟩, 1) :=
  ⟨⟨by norm_num [initWbiCache],
      (c6_key_cache initWbiCache 100 NavOutcome.err).1 (by norm_num [initWbiCache])⟩,
    ⟨by norm_num [initWbiCache],
      ((c6_key_cache initWbiCache 2000 NavOutcome.err).2
        (by norm_num [initWbiCache])).2.1 rfl⟩,
    ((c6_key_cache initWbiCache 2000
        (NavOutcome.ok "https://i0.hdslb.com/bfs/wbi/7cd084941338.png"
          "https://i0.hdslb.com/bfs/wbi/4932caff0ff7.png")).2
      (by norm_num [initWbiCache])).2.2 _ _ rfl⟩

theorem updateLoop_all_fail :
    ∀ (outcomes : List MirrorOutcome) (acc : List Info),
      (∀ o ∈ outcomes, o = MirrorOutcome.timeout ∨ o = MirrorOutcome.exception ∨
        o = MirrorOutcome.ok []) →
      updateLoop outcomes acc = acc
  | [], _, _ => rfl
  | o :: rest, acc, h => by
    have hrest := updateLoop_all_fail rest acc
      (fun x hx => h x (List.mem_cons_of_mem o hx))
    rcases h o (List.mem_cons_self o rest) with rfl | rfl | rfl <;>
      simp [updateLoop, hrest]

/-- C1 counterexample: all four mirrors time out while the stored registry
holds one entry; the refresh overwrites the store with the empty list instead
of leaving the previous value. -/
theorem c1_counterexample :
    update_vtb_list
      [MirrorOutcome.timeout, MirrorOutcome.timeout, MirrorOutcome.timeout,
        MirrorOutcome.timeout]
      [[("mid", JVal.jint 5), ("uname", JVal.jstr "neuro")]] = [] ∧
    ([[("mid", JVal.jint 5), ("uname", JVal.jstr "neuro")]] : List Info) ≠ [] := by
  exact ⟨rfl, by decide⟩

/-- C1 amended: on total mirror failure (every mirror times out, raises
before parsing any item, or returns an empty result) the refresh stores the
EMPTY list, overwriting whatever registry was previously persisted — the
unconditional `dump_vtb_list(vtb_list)` makes the refresh wipe rather than
no-op. -/
theorem c1_total_failure_stores_empty (outcomes : List MirrorOutcome)
    (prev_stored : List Info)
    (h : ∀ o ∈ outcomes, o = MirrorOutcome.timeout ∨ o = MirrorOutcome.exception ∨
      o = MirrorOutcome.ok []) :
    update_vtb_list outcomes prev_stored = [] := by
  unfold update_vtb_list
  exact updateLoop_all_fail outcomes [] h

/-- C1 witness: one mirror of each failing kind, a non-empty previous
registry. -/
theorem c1_witness :
    (∀ o ∈ [MirrorOutcome.timeout, MirrorOutcome.exception,
        MirrorOutcome.ok [], MirrorOutcome.timeout],
      o = MirrorOutcome.timeout ∨ o = MirrorOutcome.exception ∨
        o = MirrorOutcome.ok []) ∧
    update_vtb_list
      [MirrorOutcome.timeout, MirrorOutcome.exception,
        MirrorOutcome.ok [], MirrorOutcome.timeout]
      [[("mid", JVal.jint 5), ("uname", JVal.jstr "neuro")]] = [] :=
  ⟨by decide,
    c1_total_failure_stores_empty _
      [[("mid", JVal.jint 5), ("uname", JVal.jstr "neuro")]] (by decide)⟩

/-- C7 counterexample: an item carrying truthy `uid`, `mid` and `uname` is
appended twice — once normalized, once as the raw item with all three fields
— so it contributes two stored records, not exactly one two-field record. -/
theorem c7_counterexample :
    processItem [("uid", JVal.jint 1), ("mid", JVal.jint 1), ("uname", JVal.jstr "a")] =
      some [[("mid", JVal.jint 1), ("uname", JVal.jstr "a")],
        [("uid", JVal.jint 1), ("mid", JVal.jint 1), ("uname", JVal.jstr "a")]] ∧
    ¬ ∃ r : Info,
        processItem [("uid", JVal.jint 1), ("mid", JVal.jint 1), ("uname", JVal.jstr "a")] =
          some [r] := by
  refine ⟨by decide, ?_⟩
  rintro ⟨r, hr⟩
  rw [(by decide :
    processItem [("uid", JVal.jint 1), ("mid", JVal.jint 1), ("uname", JVal.jstr "a")] =
      some [[("mid", JVal.jint 1), ("uname", JVal.jstr "a")],
        [("uid", JVal.jint 1), ("mid", JVal.jint 1), ("uname", JVal.jstr "a")]])] at hr
  simp at hr

/-- C7 amended: an item matching only the uid+uname shape contributes exactly
one normalized record `{mid: int(uid), uname: uname}`; an item matching only
the mid+uname shape contributes exactly one record, namely the raw item with
all of its fields; an item matching both shapes contributes both records. -/
theorem c7_normalization (info : Info) (n : Int)
    (huname : jtruthy (jget info "uname") = true) :
    (jtruthy (jget info "uid") = true →
      pyInt ((jget info "uid").getD (JVal.jint 0)) = some n →
      jtruthy (jget info "mid") = false →
      processItem info =
        some [[("mid", JVal.jint n), ("uname", (jget info "uname").getD (JVal.jint 0))]]) ∧
    (jtruthy (jget info "uid") = false → jtruthy (jget info "mid") = true →
      processItem info = some [info]) ∧
    (jtruthy (jget info "uid") = true →
      pyInt ((jget info "uid").getD (JVal.jint 0)) = some n →
      jtruthy (jget info "mid") = true →
      processItem info =
        some [[("mid", JVal.jint n), ("uname", (jget info "uname").getD (JVal.jint 0))],
          info]) := by
  refine ⟨?_, ?_, ?_⟩
  · intro huid hint hmid
    simp [processItem, huid, hint, hmid, huname]
  · intro huid hmid
    simp [processItem, huid, hmid, huname]
  · intro huid hint hmid
    simp [processItem, huid, hint, hmid, huname]

/-- C7 witness: a uid+uname-only item is normalized into the single
two-field record. -/
theorem c7_witness :
    jtruthy (jget [("uid", JVal.jint 7), ("uname", JVal.jstr "x")] "uname") = true ∧
    jtruthy (jget [("uid", JVal.jint 7), ("uname", JVal.jstr "x")] "uid") = true ∧
    pyInt ((jget [("uid", JVal.jint 7), ("uname", JVal.jstr "x")] "uid").getD (JVal.jint 0)) =
      some 7 ∧
    jtruthy (jget [("uid", JVal.jint 7), ("uname", JVal.jstr "x")] "mid") = false ∧
    processItem [("uid", JVal.jint 7), ("uname", JVal.jstr "x")] =
      some [[("mid", JVal.jint 7),
        ("uname", (jget [("uid", JVal.jint 7), ("uname", JVal.jstr "x")] "uname").getD
          (JVal.jint 0))]] :=
  ⟨by decide, by decide, by decide, by decide,
    (c7_normalization [("uid", JVal.jint 7), ("uname", JVal.jstr "x")] 7 (by decide)).1
      (by decide) (by decide) (by decide)⟩

/-- C8: the match percentage of the report is
`matched_count / total_follow_count * 100` whenever the total follow count is
non-zero, and exactly 0 when it is zero (the guarding conditional keeps the
division from being evaluated with a zero divisor); the first component of
the report numerics is exactly this value at the computed match count. -/
theorem c8_percent (vtbs_num follows_num : ℕ) (vtb_list : List VtbEntry)
    (attentions : List Int) :
    (follows_num ≠ 0 →
      render_percent vtbs_num follows_num =
        (vtbs_num : ℚ) / (follows_num : ℚ) * 100) ∧
    render_percent vtbs_num 0 = 0 ∧
    (render_ddcheck_stats follows_num vtb_list attentions).1 =
      render_percent
        ((dictByMid vtb_list).filter (fun e => attentions.contains e.mid)).length
        follows_num := by
  exact ⟨fun h => by simp [render_percent, h], by simp [render_percent], rfl⟩

/-- C8 witness: 3 matches out of 4 follows, and any match count over 0
follows. -/
theorem c8_witness :
    (4 : ℕ) ≠ 0 ∧
    render_percent 3 4 = ((3 : ℕ) : ℚ) / ((4 : ℕ) : ℚ) * 100 ∧
    render_percent 3 0 = 0 :=
  ⟨by decide, (c8_percent 3 4 [] []).1 (by decide), (c8_percent 3 0 [] []).2.1⟩

/-- C9: the column layout value is `ceil(m / ceil(m / 100))` for every
positive match count `m` and 1 for `m = 0`; in particular it is 84 for
`m = 250`; the second component of the report numerics is exactly this value
at the computed match count. -/
theorem c9_num_per_col (m follows_num : ℕ) (vtb_list : List VtbEntry)
    (attentions : List Int) :
    (0 < m → render_num_per_col m = ⌈(m : ℚ) / (⌈(m : ℚ) / 100⌉₊ : ℚ)⌉₊) ∧
    render_num_per_col 0 = 1 ∧
    render_num_per_col 250 = 84 ∧
    (render_ddcheck_stats follows_num vtb_list attentions).2 =
      render_num_per_col
        ((dictByMid vtb_list).filter (fun e => attentions.contains e.mid)).length := by
  refine ⟨?_, rfl, ?_, rfl⟩
  · intro hm
    simp [render_num_per_col, Nat.pos_iff_ne_zero.mp hm]
  · have h1 : ⌈(5 : ℚ) / 2⌉₊ = 3 := by
      rw [Nat.ceil_eq_iff (by norm_num)]
      norm_num
    have h2 : ⌈(250 : ℚ) / 3⌉₊ = 84 := by
      rw [Nat.ceil_eq_iff (by norm_num)]
      norm_num
    norm_num [render_num_per_col, h1, h2]

/-- C9 witness: the positive-count formula instantiated at 250 matches. -/
theorem c9_witness :
    (0 : ℕ) < 250 ∧
    render_num_per_col 250 = ⌈((250 : ℕ) : ℚ) / (⌈((250 : ℕ) : ℚ) / 100⌉₊ : ℚ)⌉₊ ∧
    render_num_per_col 0 = 1 ∧
    render_num_per_col 250 = 84 :=
  ⟨by decide, (c9_num_per_col 250 0 [] []).1 (by decide),
    (c9_num_per_col 250 0 [] []).2.1, (c9_num_per_col 250 0 [] []).2.2.1⟩

end DDCheck







